import Mathlib

/-!
Verification of the Walmart search-result extraction module
(src/content/matchFinder/walmartSearch.ts).

The development shallowly embeds the three exported functions of the module:

* `findWalmartSearchResultElements` : selector-strategy fallback locator;
* `extractWalmartSearchResult`      : per-element record extraction;
* `calculateWalmartTitleSimilarity` : word-overlap title similarity.

Conventions of the embedding:

* JavaScript numbers are modelled as `Rat`; the special value NaN is
  modelled by `none` in an `Option Rat` result.
* The DOM is an external capability boundary.  A candidate element is
  modelled as a record holding, for each distinct querySelector call the
  code performs, the node that the query would return (`Option DomNode`);
  a node carries its text content and attribute list.
* Exceptions are modelled with `Except`: the body of each try block is an
  `Except`-valued function and the surrounding catch converts an error to
  the benign result, exactly as the code does.
* Regular-expression matching is embedded as executable scanners over
  `List Char` that implement the exact leftmost-match semantics of each
  concrete pattern appearing in the code (the patterns involved never
  need general backtracking: every greedy sub-pattern is followed only by
  sub-patterns that cannot consume the characters it took, which is
  argued case by case in comments).
-/

/-- Decimal value of a digit character, as in parseInt semantics. -/
def digVal (c : Char) : Nat := c.toNat - 48

/-- Character class \d of JavaScript regular expressions. -/
def isDig (c : Char) : Bool := c.isDigit

/-- Character class \s of JavaScript regular expressions, restricted to
the ASCII whitespace characters that can occur in the scanned texts. -/
def jsSpace (c : Char) : Bool :=
  c = ' ' || c = '\t' || c = '\n' || c = '\r' || c = '\x0b' || c = '\x0c'

/-- Numeric value of a digit string, as computed by parseInt with radix
ten on an all-digit string. -/
def natOfDigits (l : List Char) : Nat :=
  l.foldl (fun a c => 10 * a + digVal c) 0

/-- The JavaScript padEnd(2, "0") operation on a captured digit string. -/
def padEnd2 (l : List Char) : List Char :=
  if 2 ≤ l.length then l else l ++ List.replicate (2 - l.length) '0'

/-- Whether the first list is a starting segment of the second list,
comparing characters one by one. -/
def chStarts : List Char → List Char → Bool
  | [], _ => true
  | _ :: _, [] => false
  | c :: cs, a :: rest => c == a && chStarts cs rest

/-- The JavaScript String.includes operation: `containsIn hay needle` is
true when needle occurs contiguously inside hay. -/
def containsIn (hay needle : List Char) : Bool :=
  match hay with
  | [] => needle.isEmpty
  | _ :: rest => chStarts needle hay || containsIn rest needle

/-- Word character class \w of JavaScript regular expressions. -/
def isWordCh (c : Char) : Bool := c.isAlphanum || c = '_'

/-- Title normalisation of calculateWalmartTitleSimilarity: lowercase the
string, then delete every character that is neither a word character nor
whitespace (the replace of the pattern class excluding \w and \s). -/
def normalizeTitle (s : String) : List Char :=
  (s.data.map Char.toLower).filter (fun c => isWordCh c || jsSpace c)

/-- Splitting on runs of whitespace: the maximal non-whitespace runs of
the input, accumulated left to right.  The JavaScript split on the
pattern \s+ can additionally produce empty boundary tokens, but those are
always removed by the length filter applied right after, so the word
lists observed by the similarity scorer coincide. -/
def splitTokens : List Char → List Char → List (List Char)
  | [], acc => if acc.isEmpty then [] else [acc.reverse]
  | c :: rest, acc =>
    if jsSpace c then
      if acc.isEmpty then splitTokens rest [] else acc.reverse :: splitTokens rest []
    else splitTokens rest (c :: acc)

/-- The word list a title contributes to the similarity score: normalise,
split on whitespace, keep only words of length strictly greater than two. -/
def titleWords (s : String) : List (List Char) :=
  (splitTokens (normalizeTitle s) []).filter (fun w => 2 < w.length)

/-- The per-word test of the scorer: some word of the second list contains
the given word or is contained in it. -/
def wordMatches (w1 : List Char) (ws2 : List (List Char)) : Bool :=
  ws2.any (fun w2 => containsIn w2 w1 || containsIn w1 w2)

/-- Number of words of the first title that the loop of
calculateWalmartTitleSimilarity counts as matched against the second. -/
def matchCountT (t1 t2 : String) : Nat :=
  ((titleWords t1).filter (fun w1 => wordMatches w1 (titleWords t2))).length

/-- Embedding of calculateWalmartTitleSimilarity.  Returns `some 0` when
either title is the empty string (the leading falsiness guard); otherwise
divides the match count by the larger word count.  When both word lists
are empty that division is 0 / 0, which is NaN in JavaScript, modelled as
`none` (the match count is at most the larger word count, so a zero
denominator forces a zero numerator and the NaN case is exactly the zero
denominator case). -/
def calculateWalmartTitleSimilarity (t1 t2 : String) : Option Rat :=
  if t1 = "" || t2 = "" then some 0
  else
    let denom := max (titleWords t1).length (titleWords t2).length
    if denom = 0 then none
    else some ((matchCountT t1 t2 : Rat) / (denom : Rat))

/-- Case-insensitive literal matcher: consume the first argument at the
head of the second, comparing lowercased characters, and return the rest.
This implements a literal word of a pattern under the flag i. -/
def eatLitCI : List Char → List Char → Option (List Char)
  | [], s => some s
  | _ :: _, [] => none
  | c :: cs, a :: rest => if a.toLower = c.toLower then eatLitCI cs rest else none

/-- Case-sensitive literal matcher: consume the first argument at the
head of the second and return the rest. -/
def eatLit : List Char → List Char → Option (List Char)
  | [], s => some s
  | _ :: _, [] => none
  | c :: cs, a :: rest => if a = c then eatLit cs rest else none

/-- One or more whitespace characters, greedily.  The pattern piece
following a greedy whitespace run in the patterns below is never itself
whitespace, so greedy consumption is exact. -/
def eatSpaces1 : List Char → Option (List Char)
  | [] => none
  | c :: rest => if jsSpace c then some (rest.dropWhile jsSpace) else none

/-- Head-of-list digit test. -/
def headDig : List Char → Bool
  | d :: _ => isDig d
  | [] => false

/-- Attempt of the current-price pattern at a fixed position: literal
current (case-insensitive), one or more spaces, literal price, one or
more spaces, an optional dollar sign, a first capture of one or more
digits, an optional dot, and a second capture of up to two digits.  The
optional dollar sign and dot can be committed greedily: after either one
the remainder of the pattern fails exactly when it would have failed
without consuming it. -/
def matchCurrentAt (s : List Char) : Option (List Char × List Char) :=
  match eatLitCI "current".data s with
  | none => none
  | some s1 =>
    match eatSpaces1 s1 with
    | none => none
    | some s2 =>
      match eatLitCI "price".data s2 with
      | none => none
      | some s3 =>
        match eatSpaces1 s3 with
        | none => none
        | some s4 =>
          let s5 := match s4 with | '$' :: r => r | r => r
          match s5.takeWhile isDig, s5.dropWhile isDig with
          | [], _ => none
          | d1, s6 =>
            let s7 := match s6 with | '.' :: r => r | r => r
            some (d1, (s7.takeWhile isDig).take 2)

/-- Leftmost match of the current-price pattern: try every start
position from the left, as the JavaScript engine does. -/
def scanCurrentPrice : List Char → Option (List Char × List Char)
  | [] => none
  | c :: rest =>
    match matchCurrentAt (c :: rest) with
    | some r => some r
    | none => scanCurrentPrice rest

/-- Cents value the code derives from the second capture: an empty
capture is falsy and yields zero cents, otherwise the capture is padded
on the right to two characters with zeros and read as an integer. -/
def centsOfCapture (d2 : List Char) : Rat :=
  if d2.isEmpty then 0 else (natOfDigits (padEnd2 d2) : Rat)

/-- The current-price stage of the price parser: on a match, dollars plus
cents over one hundred. -/
def parseCurrentPrice (text : String) : Option Rat :=
  match scanCurrentPrice text.data with
  | none => none
  | some (d1, d2) => some ((natOfDigits d1 : Rat) + centsOfCapture d2 / 100)

/-- Capture step of the generic price pattern at a position whose head is
a digit: a first capture of one or more digits, then an optional group of
a dot followed by one or two digits.  The optional group requires at
least one digit after the dot; it is committed greedily, and when it is
taken the digits are capped at two. -/
def captureStandard (s : List Char) : List Char × Option (List Char) :=
  let d1 := s.takeWhile isDig
  let r := s.dropWhile isDig
  match r with
  | '.' :: t =>
    match t.takeWhile isDig with
    | [] => (d1, none)
    | ds => (d1, some (ds.take 2))
  | _ => (d1, none)

/-- Leftmost match of the generic price pattern: the engine advances the
start position until either a digit is found, or a dollar sign directly
followed by a digit (the optional dollar sign can only contribute when a
digit follows it). -/
def scanStandard : List Char → Option (List Char × Option (List Char))
  | [] => none
  | c :: rest =>
    if isDig c then some (captureStandard (c :: rest))
    else if c = '$' && headDig rest then some (captureStandard rest)
    else scanStandard rest

/-- Value the code computes from the captures of the generic pattern:
dollars plus cents over one hundred, an absent second capture giving zero
cents and a present one being right-padded to two digits. -/
def stdVal (p : List Char × Option (List Char)) : Rat :=
  (natOfDigits p.1 : Rat)
    + (match p.2 with
        | none => (0 : Rat)
        | some f => (natOfDigits (padEnd2 f) : Rat)) / 100

/-- The generic stage of the price parser. -/
def parseStandardPrice (text : String) : Option Rat :=
  (scanStandard text.data).map stdVal

/-- A DOM node as observed by the extractor: its text content (null when
the node has none) and its attribute list. -/
structure DomNode where
  textContent : Option String
  attrs : List (String × String)
deriving DecidableEq

/-- Attribute lookup, modelling getAttribute: the value of the named
attribute, or null when it is absent. -/
def DomNode.getAttribute (n : DomNode) (name : String) : Option String :=
  (n.attrs.find? (fun p => p.1 == name)).map (fun p => p.2)

/-- A candidate search-result element.  The DOM is an external capability
boundary, so the element records, for each of the eight distinct
querySelector calls the extractor performs (title, price, whole-dollar,
cents, link, image, rating and review-count sub-selectors), the node the
live document would return for it, together with the attribute list of
the element itself (consulted for the data-item-id and data-product-id
fallbacks). -/
structure DomElement where
  attrs : List (String × String)
  titleNode : Option DomNode
  priceNode : Option DomNode
  wholeDollarNode : Option DomNode
  centsNode : Option DomNode
  linkNode : Option DomNode
  imgNode : Option DomNode
  ratingNode : Option DomNode
  reviewCountNode : Option DomNode
deriving DecidableEq

/-- Attribute lookup on the element itself. -/
def DomElement.getAttribute (e : DomElement) (name : String) : Option String :=
  (e.attrs.find? (fun p => p.1 == name)).map (fun p => p.2)

/-- JavaScript truthiness of a nullable string: null and the empty string
are falsy. -/
def jsTruthyS : Option String → Bool
  | some s => !(s == "")
  | none => false

/-- The JavaScript expression x || undefined on a nullable string: an
empty string collapses to undefined. -/
def jsDefined : Option String → Option String
  | some s => if s = "" then none else some s
  | none => none

/-- The JavaScript expression a || b || undefined on nullable strings. -/
def jsOrUndef (a b : Option String) : Option String :=
  match jsDefined a with
  | some v => some v
  | none => jsDefined b

/-- Lazy middle of the first identifier pattern: after the literal /ip/
the engine grows the lazy any-character run one character at a time,
stopping at the first slash directly followed by a digit, and the final
group captures the maximal digit run after that slash; the any-character
class does not cross a line break. -/
def lazySlashDigits : List Char → Option (List Char)
  | [] => none
  | c :: rest =>
    if c = '/' && headDig rest then some (rest.takeWhile isDig)
    else if c = '\n' || c = '\r' then none
    else lazySlashDigits rest

/-- First identifier pattern, the title-slug form: at each occurrence of
the literal /ip/, from left to right, try the lazy continuation; the
first occurrence whose continuation succeeds wins. -/
def matchIpSlug : List Char → Option (List Char)
  | [] => none
  | c :: rest =>
    match eatLit "/ip/".data (c :: rest) with
    | some after =>
      match lazySlashDigits after with
      | some d => some d
      | none => matchIpSlug rest
    | none => matchIpSlug rest

/-- Second identifier pattern: the literal /ip/ directly followed by a
digit run. -/
def matchIpDirect : List Char → Option (List Char)
  | [] => none
  | c :: rest =>
    match eatLit "/ip/".data (c :: rest) with
    | some after =>
      if headDig after then some (after.takeWhile isDig) else matchIpDirect rest
    | none => matchIpDirect rest

/-- Third identifier pattern: a slash, a maximal digit run, then a
question mark, an ampersand or the end of the input.  Giving back digits
from the greedy run cannot help: the character after a shortened run is a
digit, which is none of the three terminators. -/
def matchNumSeg : List Char → Option (List Char)
  | [] => none
  | c :: rest =>
    if c = '/' && headDig rest then
      let d := rest.takeWhile isDig
      match rest.dropWhile isDig with
      | [] => some d
      | t :: _ => if t = '?' || t = '&' then some d else matchNumSeg rest
    else matchNumSeg rest

/-- Identifier resolution of extractWalmartSearchResult: the three URL
patterns in order, most specific first, stopping at the first match
(every capture is a nonempty digit run, hence truthy), and only when all
three miss, the two data attributes with JavaScript falsiness. -/
def productIdOf (e : DomElement) (url : String) : Option String :=
  match matchIpSlug url.data with
  | some d => some (String.mk d)
  | none =>
    match matchIpDirect url.data with
    | some d => some (String.mk d)
    | none =>
      match matchNumSeg url.data with
      | some d => some (String.mk d)
      | none => jsOrUndef (e.getAttribute "data-item-id") (e.getAttribute "data-product-id")

/-- Number-and-percent tail of the width pattern, tried right after an
occurrence of the literal width: an optional colon, a run of spaces, one
or more digits, an optional dot-digits group, then a percent sign.  The
optional group needs at least one digit, and when the percent sign does
not follow the group, dropping the group cannot recover a match because
the character after the integer part is then a dot. -/
def widthNumAt (s : List Char) : Option Rat :=
  let s1 := match s with | ':' :: r => r | r => r
  let s2 := s1.dropWhile jsSpace
  let d1 := s2.takeWhile isDig
  let r := s2.dropWhile isDig
  if d1.isEmpty then none
  else
    match r with
    | '.' :: t =>
      let ds := t.takeWhile isDig
      if ds.isEmpty then none
      else
        match t.dropWhile isDig with
        | '%' :: _ =>
          some ((natOfDigits d1 : Rat) + (natOfDigits ds : Rat) / (10 : Rat) ^ ds.length)
        | _ => none
    | '%' :: _ => some ((natOfDigits d1 : Rat))
    | _ => none

/-- Leftmost match of the width-percent pattern over a style string. -/
def scanWidth : List Char → Option Rat
  | [] => none
  | c :: rest =>
    match eatLit "width".data (c :: rest) with
    | some after =>
      match widthNumAt after with
      | some q => some q
      | none => scanWidth rest
    | none => scanWidth rest

/-- parseFloat value of the leftmost decimal-number match in a text: a
digit run with an optional dot-digits group, the run after the dot being
unbounded here. -/
def decimalValAt (s : List Char) : Rat :=
  let d1 := s.takeWhile isDig
  match s.dropWhile isDig with
  | '.' :: t =>
    let ds := t.takeWhile isDig
    if ds.isEmpty then (natOfDigits d1 : Rat)
    else (natOfDigits d1 : Rat) + (natOfDigits ds : Rat) / (10 : Rat) ^ ds.length
  | _ => (natOfDigits d1 : Rat)

/-- Scan for the leftmost decimal number. -/
def scanDecimal : List Char → Option Rat
  | [] => none
  | c :: rest => if isDig c then some (decimalValAt (c :: rest)) else scanDecimal rest

/-- Rating resolution: when the rating container exists and its style
attribute is truthy and mentions width, the width percentage is converted
to the five-star scale — with no rating at all when the percent pattern
then fails to match; otherwise the first decimal number of the text
content is used verbatim. -/
def ratingOf (e : DomElement) : Option Rat :=
  match e.ratingNode with
  | none => none
  | some r =>
    let styleAttr := r.getAttribute "style"
    if jsTruthyS styleAttr && containsIn (styleAttr.getD "").data "width".data then
      match scanWidth (styleAttr.getD "").data with
      | some q => some (q / 100 * 5)
      | none => none
    else scanDecimal (r.textContent.getD "").data

/-- Comma groups of the review-count pattern: after the leading digit
run, repeatedly consume a comma followed by one or more digits, greedily,
collecting the consumed characters. -/
def commaGroups (l : List Char) : List Char :=
  match l with
  | ',' :: t =>
    match t.takeWhile isDig with
    | [] => []
    | d :: ds => ',' :: d :: ds ++ commaGroups (t.dropWhile isDig)
  | _ => []
termination_by l.length
decreasing_by
  simp only [List.length_cons]
  exact Nat.lt_succ_of_le (List.Sublist.length_le (List.dropWhile_sublist _))

/-- Leftmost match of the review-count pattern: the first digit run plus
any comma groups following it, captured with the commas. -/
def scanCommaNumber : List Char → Option (List Char)
  | [] => none
  | c :: rest =>
    if isDig c then
      some ((c :: rest).takeWhile isDig ++ commaGroups ((c :: rest).dropWhile isDig))
    else scanCommaNumber rest

/-- Review-count resolution: the first comma-grouped integer of the text,
commas stripped, read as an integer. -/
def reviewCountOf (e : DomElement) : Option Nat :=
  match e.reviewCountNode with
  | none => none
  | some n =>
    match scanCommaNumber (n.textContent.getD "").data with
    | some cap => some (natOfDigits (cap.filter (fun c => !(c == ','))))
    | none => none

/-- Image resolution: the src attribute of the image node when present,
an empty source collapsing to absent. -/
def imageUrlOf (e : DomElement) : Option String :=
  match e.imgNode with
  | some img => jsDefined (img.getAttribute "src")
  | none => none

/-- The JavaScript trim operation: remove whitespace from both ends of
the string. -/
def jsTrim (s : String) : String :=
  String.mk (((s.data.dropWhile jsSpace).reverse.dropWhile jsSpace).reverse)

/-- Title resolution: the trimmed text content of the title node, the
empty string when the node or its text is absent or the trim leaves
nothing. -/
def titleOf (e : DomElement) : String :=
  match e.titleNode with
  | none => ""
  | some n =>
    match n.textContent with
    | none => ""
    | some t => jsTrim t

/-- First two price stages, on the text of the price node: the
current-price pattern when the text mentions the phrase current price,
otherwise the generic dollar pattern. -/
def price12Of (e : DomElement) : Option Rat :=
  match e.priceNode with
  | none => none
  | some n =>
    let priceText := n.textContent.getD ""
    if containsIn priceText.data "current price".data then parseCurrentPrice priceText
    else parseStandardPrice priceText

/-- Digit stripping with a default, for the split-price fallback: delete
every non-digit character of the text and fall back to the given default
when the node text is null or nothing remains. -/
def digitsOrDefault (t : Option String) (dflt : String) : String :=
  match t with
  | none => dflt
  | some s =>
    match s.data.filter isDig with
    | [] => dflt
    | d :: ds => String.mk (d :: ds)

/-- parseFloat value of the template string dollars.cents built by the
split-price fallback, both parts being nonempty digit strings. -/
def parseDollarsDotCents (d c : String) : Rat :=
  (natOfDigits d.data : Rat) + (natOfDigits c.data : Rat) / (10 : Rat) ^ c.length

/-- Split-price fallback: both the whole-dollar node and the cents node
must exist; their digit-stripped texts default to 0 dollars and 00 cents. -/
def priceSplitOf (e : DomElement) : Option Rat :=
  match e.wholeDollarNode, e.centsNode with
  | some w, some c =>
    some (parseDollarsDotCents (digitsOrDefault w.textContent "0")
            (digitsOrDefault c.textContent "00"))
  | _, _ => none

/-- Full price resolution: the pattern stages, then the split fallback.
No stage can produce NaN in the model: captures are nonempty digit
strings, so the isNaN re-checks of the code never fire. -/
def priceOf (e : DomElement) : Option Rat :=
  match price12Of e with
  | some p => some p
  | none => priceSplitOf e

/-- The href of the link node, the empty string when the node or the
attribute is absent. -/
def relHrefOf (e : DomElement) : String :=
  match e.linkNode with
  | none => ""
  | some l => (l.getAttribute "href").getD ""

/-- Resolved URL under a total resolver: an empty href stays empty
without consulting the resolver, as in the code. -/
def urlStrOf (res : String → String → String) (e : DomElement) (origin : String) : String :=
  if relHrefOf e = "" then "" else res (relHrefOf e) origin

/-- Ratings sub-record of a product match. -/
structure Ratings where
  average : Option Rat
  count : Option Nat
deriving DecidableEq

/-- The partial product record the extractor returns on success. -/
structure ProductMatchResult where
  title : String
  price : Rat
  image : Option String
  url : String
  marketplace : String
  item_id : Option String
  ratings : Ratings
deriving DecidableEq

/-- Body of the try block of extractWalmartSearchResult.  The resolver
argument models the host constructor new URL(rel, origin) — the only
operation of the body that can raise — given the href and the origin. -/
def extractWalmartSearchResultE (resolver : String → String → Except String String)
    (e : DomElement) (origin : String) : Except String (Option ProductMatchResult) :=
  let title := titleOf e
  if title = "" then Except.ok none
  else
    match priceOf e with
    | none => Except.ok none
    | some price =>
      let relativeUrl := relHrefOf e
      (if relativeUrl = "" then Except.ok "" else resolver relativeUrl origin).bind
        (fun url =>
          if url = "" then Except.ok none
          else Except.ok (some {
            title := title
            price := price
            image := imageUrlOf e
            url := url
            marketplace := "walmart"
            item_id := productIdOf e url
            ratings := { average := ratingOf e, count := reviewCountOf e } }))

/-- Embedding of extractWalmartSearchResult: the body wrapped in the
catch that converts any raised error into a null result. -/
def extractWalmartSearchResult (resolver : String → String → Except String String)
    (e : DomElement) (origin : String) : Option ProductMatchResult :=
  match extractWalmartSearchResultE resolver e origin with
  | Except.ok r => r
  | Except.error _ => none

/-- A resolver that never raises, built from a total resolution function. -/
def pureResolver (res : String → String → String) : String → String → Except String String :=
  fun rel origin => Except.ok (res rel origin)

/-- Model of the URL resolution the browser performs for the forms
exercised here: an absolute URL passes through, a root-relative path is
appended to the origin, and any other path is appended after a slash. -/
def resolveUrlModel (rel origin : String) : String :=
  if chStarts "http://".data rel.data || chStarts "https://".data rel.data then rel
  else if chStarts "/".data rel.data then origin ++ rel
  else origin ++ "/" ++ rel

/-- The ordered selector strategies of findWalmartSearchResultElements:
two attribute selectors before three class selectors. -/
def walmartSelectors : List String :=
  ["[data-item-id]",
   "[data-product-id]",
   ".search-result-gridview-item",
   ".product.product-search-result.search-result-gridview-item",
   ".sans-serif.relative.pb3.pt2.ph3.w-100"]

/-- Body of the try block of the locator: query each selector in order
through the document oracle (which can raise) and return the first
non-empty result list, or the empty list when every strategy misses. -/
def findWalmartBody {E : Type} (doc : String → Except String (List E)) :
    List String → Except String (List E)
  | [] => Except.ok []
  | s :: rest =>
    (doc s).bind (fun r => if r.isEmpty then findWalmartBody doc rest else Except.ok r)

/-- Embedding of findWalmartSearchResultElements: the body over the fixed
selector list, with the catch converting any raised error into the empty
list. -/
def findWalmartSearchResultElements {E : Type} (doc : String → Except String (List E)) :
    List E :=
  match findWalmartBody doc walmartSelectors with
  | Except.ok r => r
  | Except.error _ => []

/-- A document oracle for the locator witness: an attribute selector and
a class selector both match, with different elements. -/
def qTest : String → List Nat := fun s =>
  if s = "[data-item-id]" then [1, 2]
  else if s = ".search-result-gridview-item" then [3]
  else []

/-- Sample element with no title node but resolvable price and link. -/
def sampleNoTitle : DomElement :=
  { attrs := []
    titleNode := none
    priceNode := some { textContent := some "$9.99", attrs := [] }
    wholeDollarNode := none
    centsNode := none
    linkNode := some { textContent := none, attrs := [("href", "/ip/Thing/42")] }
    imgNode := none
    ratingNode := none
    reviewCountNode := none }

/-- Sample element of the URL-resolution test: a title, a plain dollar
price and the relative link of the claim. -/
def sampleC7 : DomElement :=
  { attrs := []
    titleNode := some { textContent := some "Some Title", attrs := [] }
    priceNode := some { textContent := some "$19.99", attrs := [] }
    wholeDollarNode := none
    centsNode := none
    linkNode := some { textContent := none, attrs := [("href", "/ip/Some-Title/123456")] }
    imgNode := none
    ratingNode := none
    reviewCountNode := none }

/-- Price node whose text has digits but no dollar sign. -/
def sampleC8node : DomNode := { textContent := some "Now 12.5 per pack", attrs := [] }

/-- Sample element for the generic price stage without a dollar sign. -/
def sampleC8 : DomElement :=
  { attrs := []
    titleNode := none
    priceNode := some sampleC8node
    wholeDollarNode := none
    centsNode := none
    linkNode := none
    imgNode := none
    ratingNode := none
    reviewCountNode := none }

/-- Whole-dollar node with no digit in its text. -/
def sampleC9w : DomNode := { textContent := some "abc", attrs := [] }

/-- Cents node with no digit in its text. -/
def sampleC9c : DomNode := { textContent := some "--", attrs := [] }

/-- Sample element for the split-price defaults: no price node at all, so
the pattern stages yield nothing, and both split nodes are digit-free. -/
def sampleC9 : DomElement :=
  { attrs := []
    titleNode := some { textContent := some "Mystery Item", attrs := [] }
    priceNode := none
    wholeDollarNode := some sampleC9w
    centsNode := some sampleC9c
    linkNode := some { textContent := none, attrs := [("href", "/ip/9")] }
    imgNode := none
    ratingNode := none
    reviewCountNode := none }

/-- Rating container whose style width exceeds one hundred percent. -/
def sampleC10styleNode : DomNode := { textContent := none, attrs := [("style", "width:200%")] }

/-- Sample element whose rating comes from the style-width path with a
percentage above one hundred. -/
def sampleC10style : DomElement :=
  { attrs := []
    titleNode := some { textContent := some "Overrated Gadget", attrs := [] }
    priceNode := some { textContent := some "$1", attrs := [] }
    wholeDollarNode := none
    centsNode := none
    linkNode := some { textContent := none, attrs := [("href", "/ip/Widget/77")] }
    imgNode := none
    ratingNode := some sampleC10styleNode
    reviewCountNode := none }

/-- Rating container with no style attribute and a text whose first
decimal number exceeds five. -/
def sampleC10textNode : DomNode :=
  { textContent := some "9.9 out of 10 stars!", attrs := [] }

/-- Sample element whose rating comes from the text fallback path. -/
def sampleC10text : DomElement :=
  { attrs := []
    titleNode := none
    priceNode := none
    wholeDollarNode := none
    centsNode := none
    linkNode := none
    imgNode := none
    ratingNode := some sampleC10textNode
    reviewCountNode := none }

/-- C1: on the pair of non-empty titles "ab", "cd" neither title yields a
word longer than two characters, the denominator is zero and the code
computes 0 / 0, that is NaN — not a score in the interval from zero to
one that both the claim and the doc comment of the function promise.  The
empty-title clause of the claim does hold, as the last two conjuncts show. -/
theorem similarity_nan_on_short_word_titles :
    calculateWalmartTitleSimilarity "ab" "cd" = none
      ∧ ¬("ab" = "" ∨ "cd" = "")
      ∧ calculateWalmartTitleSimilarity "" "cd" = some 0
      ∧ calculateWalmartTitleSimilarity "ab" "" = some 0 := by
  refine ⟨by decide, by decide, ?_, ?_⟩ <;> decide

/-- Closed form of the scorer away from the two degenerate guards, used
by several proofs below. -/
theorem similarity_formula (t1 t2 : String) (h1 : ¬t1 = "") (h2 : ¬t2 = "")
    (h3 : ¬max (titleWords t1).length (titleWords t2).length = 0) :
    calculateWalmartTitleSimilarity t1 t2
      = some ((matchCountT t1 t2 : Rat)
          / ((max (titleWords t1).length (titleWords t2).length : Nat) : Rat)) := by
  simp only [calculateWalmartTitleSimilarity]
  rw [if_neg (by simp [h1, h2]), if_neg h3]

/-- C2, counterexample: the titles "abc abcd" and "abc" score 1 in one
order and one half in the other, because the match count ranges over the
words of the first title only. -/
theorem similarity_asymmetric_counterexample :
    calculateWalmartTitleSimilarity "abc abcd" "abc"
      ≠ calculateWalmartTitleSimilarity "abc" "abc abcd" := by
  rw [similarity_formula _ _ (by decide) (by decide) (by decide),
      similarity_formula _ _ (by decide) (by decide) (by decide)]
  have e1 : matchCountT "abc abcd" "abc" = 2 := by decide
  have e2 : matchCountT "abc" "abc abcd" = 1 := by decide
  have e3 : (titleWords "abc abcd").length = 2 := by decide
  have e4 : (titleWords "abc").length = 1 := by decide
  rw [e1, e2, e3, e4]
  have e5 : max 2 1 = 2 := by decide
  have e6 : max 1 2 = 2 := by decide
  rw [e5, e6]
  simp only [ne_eq, Option.some.injEq]
  norm_num

/-- C2, amended: the per-word containment test and the denominator are
both symmetric in the two titles, so the score is symmetric exactly when
the two match counts agree; since the match count ranges over the words
of the first title only, it can differ between the two orders and the
score is not symmetric in general. -/
theorem similarity_symmetric_when_counts_agree (t1 t2 : String)
    (h : matchCountT t1 t2 = matchCountT t2 t1) :
    calculateWalmartTitleSimilarity t1 t2 = calculateWalmartTitleSimilarity t2 t1 := by
  by_cases h1 : t1 = ""
  · by_cases h2 : t2 = "" <;> simp [calculateWalmartTitleSimilarity, h1, h2]
  · by_cases h2 : t2 = ""
    · simp [calculateWalmartTitleSimilarity, h1, h2]
    · by_cases h3 : max (titleWords t1).length (titleWords t2).length = 0
      · have h4 : max (titleWords t2).length (titleWords t1).length = 0 := by
          rwa [Nat.max_comm]
        simp [calculateWalmartTitleSimilarity, h1, h2, h3, h4]
      · have h4 : ¬max (titleWords t2).length (titleWords t1).length = 0 := by
          rwa [Nat.max_comm]
        rw [similarity_formula t1 t2 h1 h2 h3, similarity_formula t2 t1 h2 h1 h4]
        rw [h, Nat.max_comm]

/-- C2, witness: two distinct concrete titles whose match counts agree in
the two orders, for which the amended theorem yields symmetry. -/
theorem similarity_symmetric_witness :
    matchCountT "apple pie" "apple tart" = matchCountT "apple tart" "apple pie"
      ∧ calculateWalmartTitleSimilarity "apple pie" "apple tart"
          = calculateWalmartTitleSimilarity "apple tart" "apple pie" :=
  ⟨by decide, similarity_symmetric_when_counts_agree "apple pie" "apple tart" (by decide)⟩

/-- C3: whenever the current-price pattern matches, the price is the
dollars capture plus the cents value over one hundred, and the cents
value follows the right-pad rule: a two-digit capture of digits a b is
worth 10 a + b, a single-digit capture of a is worth 10 a, and an empty
capture is worth zero. -/
theorem currentPrice_rightPad_rule (text : String) (d1 d2 : List Char)
    (h : scanCurrentPrice text.data = some (d1, d2)) :
    parseCurrentPrice text = some ((natOfDigits d1 : Rat) + centsOfCapture d2 / 100)
      ∧ (∀ a b, d2 = [a, b] → centsOfCapture d2 = (10 * digVal a + digVal b : Nat))
      ∧ (∀ a, d2 = [a] → centsOfCapture d2 = (10 * digVal a : Nat))
      ∧ (d2 = [] → centsOfCapture d2 = 0) := by
  refine ⟨?_, ?_, ?_, ?_⟩
  · simp only [parseCurrentPrice, h]
  · rintro a b rfl
    simp [centsOfCapture, padEnd2, natOfDigits, digVal]
  · rintro a rfl
    simp [centsOfCapture, padEnd2, natOfDigits, digVal, List.replicate]
  · rintro rfl
    simp [centsOfCapture]

/-- C3, witness: concrete evaluations of the two examples of the claim,
with the theorem applied to the first one. -/
theorem currentPrice_rightPad_witness :
    scanCurrentPrice "current price $5.5".data = some (['5'], ['5'])
      ∧ parseCurrentPrice "current price $5.5" = some (11 / 2)
      ∧ scanCurrentPrice "current price $5".data = some (['5'], [])
      ∧ parseCurrentPrice "current price $5" = some 5 := by
  have h1 : scanCurrentPrice "current price $5.5".data = some (['5'], ['5']) := by decide
  have h2 := currentPrice_rightPad_rule "current price $5.5" ['5'] ['5'] h1
  have h3 : scanCurrentPrice "current price $5".data = some (['5'], []) := by decide
  have h4 := currentPrice_rightPad_rule "current price $5" ['5'] [] h3
  refine ⟨h1, ?_, h3, ?_⟩
  · rw [h2.1, h2.2.2.1 '5' rfl]
    have a1 : natOfDigits ['5'] = 5 := by decide
    have a2 : 10 * digVal '5' = 50 := by decide
    rw [a1, a2]
    norm_num
  · rw [h4.1, h4.2.2.2 rfl]
    have a1 : natOfDigits ['5'] = 5 := by decide
    rw [a1]
    norm_num

/-- Key fact behind C8: whenever the text holds at least one digit, the
position scan of the generic pattern succeeds and its captures are those
taken at the first digit run of the text — an optional dollar sign never
being required, since a bare digit is accepted directly. -/
theorem scanStandard_finds_first_run (l : List Char) (h : l.any isDig = true) :
    scanStandard l = some (captureStandard (l.dropWhile (fun c => !isDig c))) := by
  induction l with
  | nil => exact absurd h (by decide)
  | cons c rest ih =>
    by_cases hc : isDig c = true
    · simp [scanStandard, hc, List.dropWhile_cons]
    · have h' : rest.any isDig = true := by
        simpa [List.any_cons, hc] using h
      by_cases hd : (c = '$' && headDig rest) = true
      · have hd2 : c = '$' ∧ headDig rest = true := by simpa using hd
        cases rest with
        | nil => simp [headDig] at hd2
        | cons d t =>
          have hdd : isDig d = true := by simpa [headDig] using hd2.2
          simp [scanStandard, hc, hd, List.dropWhile_cons, hdd]
      · simp only [scanStandard, hc, hd, if_false, Bool.false_eq_true]
        rw [List.dropWhile_cons, if_pos (by simp [hc])]
        exact ih h'

/-- C4: the extractor returns null exactly when one of the three
mandatory fields fails to resolve — empty title, no price from any
stage, or empty resolved URL — so a partially-filled record is never
returned; in particular an empty title alone forces null.  Stated for an
arbitrary non-raising resolver. -/
theorem extract_none_iff_mandatory_field_missing
    (res : String → String → String) (e : DomElement) (origin : String) :
    extractWalmartSearchResult (pureResolver res) e origin = none
      ↔ (titleOf e = "" ∨ priceOf e = none ∨ urlStrOf res e origin = "") := by
  unfold extractWalmartSearchResult extractWalmartSearchResultE urlStrOf
  by_cases ht : titleOf e = ""
  · simp [ht]
  · cases hp : priceOf e with
    | none => simp [ht, hp]
    | some p =>
      by_cases hr : relHrefOf e = ""
      · simp [ht, hp, hr, pureResolver, Except.bind]
      · by_cases hu : res (relHrefOf e) origin = ""
        · simp [ht, hp, hr, hu, pureResolver, Except.bind]
        · simp [ht, hp, hr, hu, pureResolver, Except.bind]

/-- C4, witness: an element whose price and link resolve but whose title
is missing yields null, by the theorem applied at the empty-title
disjunct. -/
theorem extract_none_iff_witness :
    extractWalmartSearchResult (pureResolver resolveUrlModel) sampleNoTitle
      "https://www.walmart.com" = none :=
  (extract_none_iff_mandatory_field_missing resolveUrlModel sampleNoTitle
      "https://www.walmart.com").mpr (Or.inl rfl)

/-- The locator body over a non-raising document oracle computes the
first non-empty strategy result. -/
theorem findWalmartBody_pure {E : Type} (q : String → List E) (sel : List String) :
    findWalmartBody (fun s => Except.ok (q s)) sel
      = Except.ok (((sel.map q).find? (fun r => !r.isEmpty)).getD []) := by
  induction sel with
  | nil => rfl
  | cons s rest ih =>
    have hstep : ∀ (b : List E) (l : List (List E)),
        (b :: l).find? (fun r => !r.isEmpty)
          = if b.isEmpty then l.find? (fun r => !r.isEmpty) else some b := by
      intro b l
      cases hb : b.isEmpty <;> simp [List.find?_cons, hb]
    simp only [findWalmartBody, Except.bind, List.map_cons, hstep]
    by_cases hqs : (q s).isEmpty = true
    · rw [if_pos hqs, if_pos hqs]
      exact ih
    · rw [if_neg hqs, if_neg hqs]
      rfl

/-- C5: over any non-raising document oracle the locator returns exactly
the result list of the first selector strategy that matches at least one
element (no merging), the empty list when every strategy misses; and the
strategy order puts the two attribute selectors before the three class
selectors. -/
theorem locator_first_nonempty_strategy {E : Type} (q : String → List E) :
    findWalmartSearchResultElements (fun s => Except.ok (q s))
        = ((walmartSelectors.map q).find? (fun r => !r.isEmpty)).getD []
      ∧ ((∀ s ∈ walmartSelectors, q s = []) →
          findWalmartSearchResultElements (fun s => Except.ok (q s)) = [])
      ∧ (∀ s ∈ walmartSelectors.take 2, s.data.head? = some '[')
      ∧ (∀ s ∈ walmartSelectors.drop 2, s.data.head? = some '.') := by
  have h1 : findWalmartSearchResultElements (fun s => Except.ok (q s))
      = ((walmartSelectors.map q).find? (fun r => !r.isEmpty)).getD [] := by
    unfold findWalmartSearchResultElements
    rw [findWalmartBody_pure]
  refine ⟨h1, ?_, by decide, by decide⟩
  intro hall
  rw [h1]
  have h2 : (walmartSelectors.map q).find? (fun r => !r.isEmpty) = none := by
    rw [List.find?_eq_none]
    intro x hx
    rcases List.mem_map.mp hx with ⟨s, hs, rfl⟩
    simp [hall s hs]
  rw [h2]
  rfl

/-- C5, witness: on a page where both an attribute selector and a class
selector match, only the matches of the attribute selector are returned. -/
theorem locator_first_nonempty_witness :
    findWalmartSearchResultElements (fun s => Except.ok (qTest s)) = [1, 2] := by
  rw [(locator_first_nonempty_strategy qTest).1]
  decide

/-- C6: both public operations catch every internal error at their
boundary: an error raised inside the locator body turns into the empty
list, and an error raised inside the extractor body turns into a null
result — neither function can propagate an error by construction, since
both return plain values. -/
theorem errors_caught_at_boundaries :
    (∀ (E : Type) (doc : String → Except String (List E)) (err : String),
        findWalmartBody doc walmartSelectors = Except.error err →
        findWalmartSearchResultElements doc = [])
      ∧ (∀ (resolver : String → String → Except String String) (e : DomElement)
          (origin err : String),
          extractWalmartSearchResultE resolver e origin = Except.error err →
          extractWalmartSearchResult resolver e origin = none) := by
  constructor
  · intro E doc err h
    unfold findWalmartSearchResultElements
    rw [h]
  · intro resolver e origin err h
    unfold extractWalmartSearchResult
    rw [h]

/-- C6, witness: a document oracle that raises on every query makes the
locator return the empty list, and a URL resolver that raises makes the
extractor return null on an element whose other fields resolve. -/
theorem errors_caught_witness :
    findWalmartSearchResultElements
        (fun _ => (Except.error "query failed" : Except String (List Nat))) = []
      ∧ extractWalmartSearchResult (fun _ _ => Except.error "invalid URL") sampleC7
          "https://www.walmart.com" = none := by
  constructor
  · exact errors_caught_at_boundaries.1 Nat _ "query failed" rfl
  · exact errors_caught_at_boundaries.2 _ sampleC7 "https://www.walmart.com" "invalid URL" rfl

/-- C7: the relative link of the claim resolves to an absolute URL and
identifier 123456, and identifier patterns are consulted most specific
first with the data attributes only as the last resort: the title-slug
pattern wins when it matches, then the direct /ip/ digits pattern, then
the generic numeric path segment, and only when all three miss are the
two data attributes read. -/
theorem url_resolution_and_id_precedence :
    ((extractWalmartSearchResult (pureResolver resolveUrlModel) sampleC7
          "https://www.walmart.com").map (fun r => (r.url, r.item_id)))
        = some ("https://www.walmart.com/ip/Some-Title/123456", some "123456")
      ∧ chStarts "https://".data "https://www.walmart.com/ip/Some-Title/123456".data = true
      ∧ (∀ (e : DomElement) (url : String) (d : List Char),
          matchIpSlug url.data = some d → productIdOf e url = some (String.mk d))
      ∧ (∀ (e : DomElement) (url : String) (d : List Char),
          matchIpSlug url.data = none → matchIpDirect url.data = some d →
          productIdOf e url = some (String.mk d))
      ∧ (∀ (e : DomElement) (url : String) (d : List Char),
          matchIpSlug url.data = none → matchIpDirect url.data = none →
          matchNumSeg url.data = some d → productIdOf e url = some (String.mk d))
      ∧ (∀ (e : DomElement) (url : String),
          matchIpSlug url.data = none → matchIpDirect url.data = none →
          matchNumSeg url.data = none →
          productIdOf e url
            = jsOrUndef (e.getAttribute "data-item-id") (e.getAttribute "data-product-id")) := by
  refine ⟨by decide, by decide, ?_, ?_, ?_, ?_⟩
  · intro e url d h
    simp [productIdOf, h]
  · intro e url d h1 h2
    simp [productIdOf, h1, h2]
  · intro e url d h1 h2 h3
    simp [productIdOf, h1, h2, h3]
  · intro e url h1 h2 h3
    simp [productIdOf, h1, h2, h3]

/-- C7, witness: the title-slug pattern applied to the resolved URL of
the claim, through the precedence part of the theorem. -/
theorem url_resolution_witness :
    productIdOf sampleC7 "https://www.walmart.com/ip/Some-Title/123456" = some "123456" :=
  url_resolution_and_id_precedence.2.2.1 sampleC7
    "https://www.walmart.com/ip/Some-Title/123456" "123456".data (by decide)

/-- C8: for a price text that does not mention current price and holds at
least one digit, the generic stage always produces a price — the dollar
sign being optional — and its value is computed from the captures taken
at the first digit run of the text. -/
theorem genericStage_dollar_optional (e : DomElement) (n : DomNode) (text : String)
    (h1 : e.priceNode = some n) (h2 : n.textContent = some text)
    (h3 : containsIn text.data "current price".data = false)
    (h4 : text.data.any isDig = true) :
    price12Of e = some (stdVal (captureStandard (text.data.dropWhile (fun c => !isDig c)))) := by
  unfold price12Of
  rw [h1]
  simp only [h2, Option.getD_some]
  rw [if_neg (by simp [h3])]
  unfold parseStandardPrice
  rw [scanStandard_finds_first_run text.data h4]
  rfl

/-- C8, witness: the dollar-free text Now 12.5 per pack yields the price
twelve and a half through the generic stage. -/
theorem genericStage_dollar_optional_witness :
    price12Of sampleC8 = some (25 / 2) := by
  have h := genericStage_dollar_optional sampleC8 sampleC8node "Now 12.5 per pack"
    rfl rfl (by decide) (by decide)
  rw [h]
  have hcap : captureStandard ("Now 12.5 per pack".data.dropWhile (fun c => !isDig c))
      = (['1', '2'], some ['5']) := by decide
  rw [hcap]
  have h5 : natOfDigits ['1', '2'] = 12 := by decide
  have h6 : natOfDigits (padEnd2 ['5']) = 50 := by decide
  simp [stdVal, h5, h6]
  norm_num

/-- C9: when the pattern stages produce nothing and both split nodes
exist but hold no digit at all, the defaults 0 dollars and 00 cents make
the extractor return a record with price exactly zero, provided the
title and the URL resolve — the extraction is not aborted. -/
theorem splitFallback_defaults_to_zero
    (res : String → String → String) (e : DomElement) (w c : DomNode) (origin : String)
    (h0 : price12Of e = none)
    (h1 : e.wholeDollarNode = some w) (h2 : e.centsNode = some c)
    (h3 : (w.textContent.getD "").data.filter isDig = [])
    (h4 : (c.textContent.getD "").data.filter isDig = [])
    (h5 : ¬titleOf e = "")
    (h6 : ¬urlStrOf res e origin = "") :
    (extractWalmartSearchResult (pureResolver res) e origin).map (fun r => r.price)
      = some 0 := by
  have hdw : digitsOrDefault w.textContent "0" = "0" := by
    cases hw : w.textContent with
    | none => rfl
    | some s =>
      rw [hw] at h3
      simp only [Option.getD_some] at h3
      simp [digitsOrDefault, h3]
  have hdc : digitsOrDefault c.textContent "00" = "00" := by
    cases hw : c.textContent with
    | none => rfl
    | some s =>
      rw [hw] at h4
      simp only [Option.getD_some] at h4
      simp [digitsOrDefault, h4]
  have hval : parseDollarsDotCents "0" "00" = 0 := by
    have a1 : natOfDigits "0".data = 0 := by decide
    have a2 : natOfDigits "00".data = 0 := by decide
    simp [parseDollarsDotCents, a1, a2]
  have hsplit : priceSplitOf e = some 0 := by
    simp only [priceSplitOf, h1, h2, hdw, hdc, hval]
  have hprice : priceOf e = some 0 := by
    simp only [priceOf, h0, hsplit]
  have hrel : ¬relHrefOf e = "" := by
    intro hr
    exact h6 (by simp [urlStrOf, hr])
  have hres : ¬res (relHrefOf e) origin = "" := by
    intro hx
    exact h6 (by simp [urlStrOf, hrel, hx])
  simp [extractWalmartSearchResult, extractWalmartSearchResultE, hprice, h5, hrel, hres,
    pureResolver, Except.bind]

/-- C9, witness: an element with no price node, digit-free split nodes, a
title and a resolvable link yields a record of price zero. -/
theorem splitFallback_defaults_witness :
    (extractWalmartSearchResult (pureResolver resolveUrlModel) sampleC9
        "https://www.walmart.com").map (fun r => r.price) = some 0 :=
  splitFallback_defaults_to_zero resolveUrlModel sampleC9 sampleC9w sampleC9c
    "https://www.walmart.com" rfl rfl rfl (by decide) (by decide) (by decide) (by decide)

/-- Every value produced by the number-and-percent tail of the width
pattern is nonnegative. -/
theorem widthNumAt_nonneg (s : List Char) (q : Rat) (h : widthNumAt s = some q) : 0 ≤ q := by
  simp only [widthNumAt] at h
  split at h
  · exact absurd h (by simp)
  · split at h
    · split at h
      · exact absurd h (by simp)
      · split at h
        · injection h with h
          subst h
          positivity
        · exact absurd h (by simp)
    · injection h with h
      subst h
      positivity
    · exact absurd h (by simp)

/-- Every value produced by the width-percent scan is nonnegative. -/
theorem scanWidth_nonneg (l : List Char) (q : Rat) (h : scanWidth l = some q) : 0 ≤ q := by
  induction l with
  | nil => exact absurd h (by simp [scanWidth])
  | cons c rest ih =>
    simp only [scanWidth] at h
    cases he : eatLit "width".data (c :: rest) with
    | none =>
      simp only [he] at h
      exact ih h
    | some after =>
      simp only [he] at h
      cases hw : widthNumAt after with
      | none =>
        simp only [hw] at h
        exact ih h
      | some q2 =>
        simp only [hw] at h
        injection h with h
        subst h
        exact widthNumAt_nonneg after q2 hw

/-- C10, counterexample: an element whose rating container carries the
inline style width:200% goes through the style-width path and yields the
returned average 200 / 100 * 5 = 10, which exceeds 5 — so the style-width
path is not bounded by the interval from zero to five either. -/
theorem rating_style_path_unclamped_counterexample :
    ((extractWalmartSearchResult (pureResolver resolveUrlModel) sampleC10style
          "https://www.walmart.com").map (fun r => r.ratings.average))
        = some (some ((natOfDigits ['2', '0', '0'] : Rat) / 100 * 5))
      ∧ ¬((natOfDigits ['2', '0', '0'] : Rat) / 100 * 5 ≤ 5) := by
  constructor
  · rfl
  · have hB : natOfDigits ['2', '0', '0'] = 200 := by decide
    rw [hB]
    norm_num

/-- C10, amended: the returned rating is clamped on no path.  On the
style-width path it equals percent / 100 * 5, a nonnegative value that is
at most 5 exactly when the matched percent is at most 100 (percentages
above 100 give averages above 5, as the counterexample shows); on the
text fallback path the first decimal number of the text is used verbatim,
and can likewise exceed 5, as the last two conjuncts show on a concrete
element. -/
theorem rating_paths_formula_no_clamp :
    (∀ (e : DomElement) (r : DomNode) (q : Rat),
        e.ratingNode = some r →
        (jsTruthyS (r.getAttribute "style")
            && containsIn ((r.getAttribute "style").getD "").data "width".data) = true →
        scanWidth ((r.getAttribute "style").getD "").data = some q →
        ratingOf e = some (q / 100 * 5) ∧ 0 ≤ q ∧ (q ≤ 100 → q / 100 * 5 ≤ 5))
      ∧ (∀ (e : DomElement) (r : DomNode),
          e.ratingNode = some r →
          (jsTruthyS (r.getAttribute "style")
              && containsIn ((r.getAttribute "style").getD "").data "width".data) = false →
          ratingOf e = scanDecimal (r.textContent.getD "").data)
      ∧ ratingOf sampleC10text
          = some ((natOfDigits ['9'] : Rat) + (natOfDigits ['9'] : Rat) / (10 : Rat) ^ 1)
      ∧ ¬((natOfDigits ['9'] : Rat) + (natOfDigits ['9'] : Rat) / (10 : Rat) ^ 1 ≤ 5) := by
  refine ⟨?_, ?_, rfl, ?_⟩
  · intro e r q h1 h2 h3
    refine ⟨?_, scanWidth_nonneg _ q h3, ?_⟩
    · simp [ratingOf, h1, h2, h3]
    · intro hq
      have hrw : q / 100 * 5 = q * (5 / 100) := by ring
      rw [hrw]
      linarith
  · intro e r h1 h2
    simp [ratingOf, h1, h2]
  · have hB : natOfDigits ['9'] = 9 := by decide
    rw [hB]
    norm_num

/-- C10, witness: the style-width conjunct of the amended theorem applied
to the concrete element with style width:200%. -/
theorem rating_paths_formula_witness :
    ratingOf sampleC10style
      = some ((natOfDigits ['2', '0', '0'] : Rat) / 100 * 5) :=
  (rating_paths_formula_no_clamp.1 sampleC10style sampleC10styleNode
    ((natOfDigits ['2', '0', '0'] : Rat)) rfl (by decide) rfl).1
